import Mathlib

/-!
Shallow embedding of the gedv repository's geometry and collision
subsystem (src/geometry.rs, src/collision.rs) and of the mouse-button
bitset (src/mouse.rs), with theorems settling the spec claims.

The Rust code is generic over a numeric representation `T`
(`num::Num + PartialOrd`) and a zero-sized coordinate-space tag `Coord`.
The embedding keeps both type parameters: `Coord` is a phantom parameter,
and the comparison-only collision predicates are stated over any
`LinearOrder` (the ordered representations the library is used with:
integers, rationals).  Rust integer division truncates toward zero, so
the integer instantiation of the DPI conversions uses `Int.tdiv`.
-/

namespace Gedv

/-- Coordinate-space tag `coord::Logical` (zero-sized marker type). -/
inductive Logical : Type where
  | mk

/-- Coordinate-space tag `coord::Physical` (zero-sized marker type). -/
inductive Physical : Type where
  | mk

/-- Coordinate-space tag `coord::Screen` (zero-sized marker type). -/
inductive Screen : Type where
  | mk

/-- Embeds `Position<T, Coord>`: an `(x, y)` pair in representation `T`,
tagged with a phantom coordinate space. -/
structure Position (T : Type) (Coord : Type) where
  x : T
  y : T
deriving DecidableEq, Repr

/-- Embeds `Position::new`. -/
def Position.new {T Coord : Type} (x y : T) : Position T Coord := ⟨x, y⟩

/-- Embeds `Size<T, Coord>`: a `(width, height)` pair. -/
structure Size (T : Type) (Coord : Type) where
  width : T
  height : T
deriving DecidableEq, Repr

/-- Embeds `Size::new`. -/
def Size.new {T Coord : Type} (width height : T) : Size T Coord := ⟨width, height⟩

/-- Embeds `Rect<T, Coord>`: four edges `(left, top, right, bottom)`. -/
structure Rect (T : Type) (Coord : Type) where
  left : T
  top : T
  right : T
  bottom : T
deriving DecidableEq, Repr

/-- Embeds `Rect::new`. -/
def Rect.new {T Coord : Type} (left top right bottom : T) : Rect T Coord :=
  ⟨left, top, right, bottom⟩

/-- Embeds `Rect::from_position_size`: `right = left + width`, `bottom = top + height`. -/
def Rect.from_position_size {T Coord : Type} [Add T]
    (position : Position T Coord) (size : Size T Coord) : Rect T Coord :=
  ⟨position.x, position.y, position.x + size.width, position.y + size.height⟩

abbrev LogicalPosition (T : Type) := Position T Logical
abbrev PhysicalPosition (T : Type) := Position T Physical
abbrev LogicalSize (T : Type) := Size T Logical
abbrev PhysicalSize (T : Type) := Size T Physical
abbrev LogicalRect (T : Type) := Rect T Logical
abbrev PhysicalRect (T : Type) := Rect T Physical

/-! Collision predicates, from src/collision.rs. -/

/-- Embeds `Collision<Rect<T, Coord>> for Position<T, Coord>::is_crossing`:
`self.x >= rhs.left && self.y >= rhs.top && self.x <= rhs.right && self.y <= rhs.bottom`. -/
def Position.is_crossing {T Coord : Type} [LinearOrder T]
    (self : Position T Coord) (rhs : Rect T Coord) : Bool :=
  decide (self.x ≥ rhs.left) && decide (self.y ≥ rhs.top) &&
    decide (self.x ≤ rhs.right) && decide (self.y ≤ rhs.bottom)

/-- Embeds `Collision<Rect<T, Coord>> for Position<T, Coord>::contains`:
delegates to `self.is_crossing(inner)`. -/
def Position.contains {T Coord : Type} [LinearOrder T]
    (self : Position T Coord) (inner : Rect T Coord) : Bool :=
  self.is_crossing inner

/-- Embeds `Collision<Position<T, Coord>> for Rect<T, Coord>::is_crossing`:
delegates to `rhs.is_crossing(self)`. -/
def Rect.is_crossing_pos {T Coord : Type} [LinearOrder T]
    (self : Rect T Coord) (rhs : Position T Coord) : Bool :=
  rhs.is_crossing self

/-- Embeds `Collision<Position<T, Coord>> for Rect<T, Coord>::contains`:
delegates to `self.is_crossing(inner)`. -/
def Rect.contains_pos {T Coord : Type} [LinearOrder T]
    (self : Rect T Coord) (inner : Position T Coord) : Bool :=
  self.is_crossing_pos inner

/-- Embeds `Collision<Rect<T, Coord>> for Rect<T, Coord>::is_crossing`:
`self.left <= rhs.right && self.top <= rhs.bottom && self.right >= rhs.left
&& self.bottom >= rhs.top`. -/
def Rect.is_crossing {T Coord : Type} [LinearOrder T]
    (self : Rect T Coord) (rhs : Rect T Coord) : Bool :=
  decide (self.left ≤ rhs.right) && decide (self.top ≤ rhs.bottom) &&
    decide (self.right ≥ rhs.left) && decide (self.bottom ≥ rhs.top)

/-- Embeds `Collision<Rect<T, Coord>> for Rect<T, Coord>::contains`:
`self.left <= inner.left && self.top <= inner.top && self.right >= inner.right
&& self.bottom >= inner.bottom`. -/
def Rect.contains {T Coord : Type} [LinearOrder T]
    (self : Rect T Coord) (inner : Rect T Coord) : Bool :=
  decide (self.left ≤ inner.left) && decide (self.top ≤ inner.top) &&
    decide (self.right ≥ inner.right) && decide (self.bottom ≥ inner.bottom)

/-! DPI conversion protocol, from src/geometry.rs. -/

/-- Embeds `pub const DEFAULT_DPI: u32 = 96`. -/
def DEFAULT_DPI : Nat := 96

/-- Arithmetic interface the generic DPI conversions use from a
representation `T` (Rust bound `num::Num + num::NumCast`): the
representation's multiplication, its own division (truncating for
integers), and the cast of the `u32` constant `DEFAULT_DPI` into `T`
(`num::cast(DEFAULT_DPI).unwrap()`). -/
class NumRep (T : Type) where
  mul : T → T → T
  div : T → T → T
  ofU32 : Nat → T

/-- Integer representation: Rust integer division truncates toward zero,
which is `Int.tdiv`. -/
instance instNumRepInt : NumRep Int where
  mul := (· * ·)
  div := Int.tdiv
  ofU32 := fun n => (n : Int)

/-- Exact rational representation (stands in for representations whose
division is exact). -/
instance instNumRepRat : NumRep ℚ where
  mul := (· * ·)
  div := (· / ·)
  ofU32 := fun n => (n : ℚ)

/-- Embeds `to_logical_value`: `a * num::cast(DEFAULT_DPI).unwrap() / dpi`. -/
def to_logical_value {T : Type} [NumRep T] (a dpi : T) : T :=
  NumRep.div (NumRep.mul a (NumRep.ofU32 DEFAULT_DPI)) dpi

/-- Embeds `to_physical_value`: `a * dpi / num::cast(DEFAULT_DPI).unwrap()`. -/
def to_physical_value {T : Type} [NumRep T] (a dpi : T) : T :=
  NumRep.div (NumRep.mul a dpi) (NumRep.ofU32 DEFAULT_DPI)

/-- Embeds `ToLogical<T> for LogicalPosition<T>`: identity, DPI ignored. -/
def LogicalPosition.to_logical {T : Type} (self : LogicalPosition T) (_dpi : T) :
    LogicalPosition T :=
  self

/-- Embeds `ToLogical<T> for LogicalSize<T>`: identity, DPI ignored. -/
def LogicalSize.to_logical {T : Type} (self : LogicalSize T) (_dpi : T) :
    LogicalSize T :=
  self

/-- Embeds `ToLogical<T> for LogicalRect<T>`: identity, DPI ignored. -/
def LogicalRect.to_logical {T : Type} (self : LogicalRect T) (_dpi : T) :
    LogicalRect T :=
  self

/-- Embeds `ToLogical<T> for PhysicalPosition<T>`: converts each component
with `to_logical_value`. -/
def PhysicalPosition.to_logical {T : Type} [NumRep T]
    (self : PhysicalPosition T) (dpi : T) : LogicalPosition T :=
  Position.new (to_logical_value self.x dpi) (to_logical_value self.y dpi)

/-- Embeds `ToLogical<T> for PhysicalSize<T>`. -/
def PhysicalSize.to_logical {T : Type} [NumRep T]
    (self : PhysicalSize T) (dpi : T) : LogicalSize T :=
  Size.new (to_logical_value self.width dpi) (to_logical_value self.height dpi)

/-- Embeds `ToLogical<T> for PhysicalRect<T>`. -/
def PhysicalRect.to_logical {T : Type} [NumRep T]
    (self : PhysicalRect T) (dpi : T) : LogicalRect T :=
  Rect.new (to_logical_value self.left dpi) (to_logical_value self.top dpi)
    (to_logical_value self.right dpi) (to_logical_value self.bottom dpi)

/-- Embeds `ToPhysical<T> for LogicalPosition<T>`: converts each component
with `to_physical_value`. -/
def LogicalPosition.to_physical {T : Type} [NumRep T]
    (self : LogicalPosition T) (dpi : T) : PhysicalPosition T :=
  Position.new (to_physical_value self.x dpi) (to_physical_value self.y dpi)

/-- Embeds `ToPhysical<T> for LogicalSize<T>`. -/
def LogicalSize.to_physical {T : Type} [NumRep T]
    (self : LogicalSize T) (dpi : T) : PhysicalSize T :=
  Size.new (to_physical_value self.width dpi) (to_physical_value self.height dpi)

/-- Embeds `ToPhysical<T> for LogicalRect<T>`. -/
def LogicalRect.to_physical {T : Type} [NumRep T]
    (self : LogicalRect T) (dpi : T) : PhysicalRect T :=
  Rect.new (to_physical_value self.left dpi) (to_physical_value self.top dpi)
    (to_physical_value self.right dpi) (to_physical_value self.bottom dpi)

/-- Embeds `ToPhysical<T> for PhysicalPosition<T>`: identity, DPI ignored. -/
def PhysicalPosition.to_physical {T : Type} (self : PhysicalPosition T) (_dpi : T) :
    PhysicalPosition T :=
  self

/-- Embeds `ToPhysical<T> for PhysicalSize<T>`: identity, DPI ignored. -/
def PhysicalSize.to_physical {T : Type} (self : PhysicalSize T) (_dpi : T) :
    PhysicalSize T :=
  self

/-- Embeds `ToPhysical<T> for PhysicalRect<T>`: identity, DPI ignored. -/
def PhysicalRect.to_physical {T : Type} (self : PhysicalRect T) (_dpi : T) :
    PhysicalRect T :=
  self

/-! Mouse-button bitset, from src/mouse.rs. -/

/-- Embeds `enum MouseButton { Left, Right, Middle, Ex(u32) }`. -/
inductive MouseButton : Type where
  | Left : MouseButton
  | Right : MouseButton
  | Middle : MouseButton
  | Ex : Nat → MouseButton
deriving DecidableEq, Repr

/-- Embeds `MouseButton::EX_LEN = 29`: the number of valid extra-button
indices (`Ex(x)` shifts by `x + 3`, which must stay below the 32-bit width). -/
def MouseButton.EX_LEN : Nat := 29

/-- Embeds `MouseButton::as_u32`.  The value lives in `u32`; `% 2 ^ 32`
records the 32-bit width (for `Ex x` with `x + 3 >= 32` the Rust shift
overflows and panics, so theorems quantify only over `x < EX_LEN`). -/
def MouseButton.as_u32 : MouseButton → Nat
  | .Left => 0x01
  | .Right => 0x01 <<< 1
  | .Middle => 0x01 <<< 2
  | .Ex x => (0x01 <<< (x + 3)) % 2 ^ 32

/-- Embeds `struct MouseButtons(u32)`. -/
structure MouseButtons : Type where
  bits : Nat
deriving DecidableEq, Repr

/-- Embeds `MouseButtons::new`: the empty bitset. -/
def MouseButtons.new : MouseButtons := ⟨0⟩

/-- Embeds `MouseButtons::contains`: `self.0 & button == button`. -/
def MouseButtons.contains (self : MouseButtons) (button : MouseButton) : Bool :=
  self.bits &&& button.as_u32 == button.as_u32

/-- Embeds `BitOr for MouseButton`: `MouseButtons(self.as_u32() | rhs.as_u32())`. -/
def MouseButton.bitor (self rhs : MouseButton) : MouseButtons :=
  ⟨self.as_u32 ||| rhs.as_u32⟩

/-- Embeds `BitOr<MouseButton> for MouseButtons`: `MouseButtons(self.0 | rhs.as_u32())`. -/
def MouseButtons.bitor (self : MouseButtons) (rhs : MouseButton) : MouseButtons :=
  ⟨self.bits ||| rhs.as_u32⟩

/-- Embeds `From<[MouseButton; N]> for MouseButtons`:
`value.iter().fold(MouseButtons::new(), |r, b| r | *b)` (the array becomes a list). -/
def MouseButtons.from_array (value : List MouseButton) : MouseButtons :=
  value.foldl (fun r b => r.bitor b) MouseButtons.new

/-- Embeds `From<&[MouseButton]> for MouseButtons`: the same fold over a slice. -/
def MouseButtons.from_slice (value : List MouseButton) : MouseButtons :=
  value.foldl (fun r b => r.bitor b) MouseButtons.new

/-- Embeds `From<Vec<MouseButton>> for MouseButtons`: the same fold over a vector. -/
def MouseButtons.from_vec (value : List MouseButton) : MouseButtons :=
  value.foldl (fun r b => r.bitor b) MouseButtons.new

end Gedv

namespace Gedv

/-- C1: point vs rectangle crossing is exactly closed-interval membership on
both axes; boundary points count, and the spec's concrete examples on
rect(10,10,20,20) hold. -/
theorem C1_point_rect_crossing :
    (∀ (T : Type) [LinearOrder T] (Coord : Type)
        (p : Position T Coord) (r : Rect T Coord),
      p.is_crossing r = true ↔
        (r.left ≤ p.x ∧ p.x ≤ r.right ∧ r.top ≤ p.y ∧ p.y ≤ r.bottom)) ∧
    (Position.new 10 10 : LogicalPosition Int).is_crossing (Rect.new 10 10 20 20) = true ∧
    (Position.new 20 20 : LogicalPosition Int).is_crossing (Rect.new 10 10 20 20) = true ∧
    (Position.new 9 10 : LogicalPosition Int).is_crossing (Rect.new 10 10 20 20) = false := by
  refine ⟨?_, by decide, by decide, by decide⟩
  intro T _ Coord p r
  simp only [Position.is_crossing, Bool.and_eq_true, decide_eq_true_eq, ge_iff_le]
  tauto

/-- Witness for C1 at the concrete interior point (15, 15). -/
theorem C1_point_rect_crossing_witness :
    (Position.new 15 15 : LogicalPosition Int).is_crossing (Rect.new 10 10 20 20) = true :=
  (C1_point_rect_crossing.1 Int Logical (Position.new 15 15) (Rect.new 10 10 20 20)).mpr
    (by decide)

/-- C2: rectangle vs rectangle crossing is exactly the stated four
comparisons, for every pair of rectangles regardless of edge ordering
(inverted rectangles included). -/
theorem C2_rect_rect_crossing :
    ∀ (T : Type) [LinearOrder T] (Coord : Type) (a b : Rect T Coord),
      a.is_crossing b = true ↔
        (a.left ≤ b.right ∧ a.top ≤ b.bottom ∧ b.left ≤ a.right ∧ b.top ≤ a.bottom) := by
  intro T _ Coord a b
  simp only [Rect.is_crossing, Bool.and_eq_true, decide_eq_true_eq, ge_iff_le]
  tauto

/-- Witness for C2: an inverted rectangle crossing an ordinary one. -/
theorem C2_rect_rect_crossing_witness :
    (Rect.new 5 5 0 0 : LogicalRect Int).is_crossing (Rect.new 0 0 10 10) = true :=
  (C2_rect_rect_crossing Int Logical (Rect.new 5 5 0 0) (Rect.new 0 0 10 10)).mpr
    (by decide)

/-- C3: rectangle-contains-rectangle is exactly the stated four comparisons,
and the spec's concrete examples on outer = rect(10,10,20,20) hold. -/
theorem C3_rect_contains_rect :
    (∀ (T : Type) [LinearOrder T] (Coord : Type) (outer inner : Rect T Coord),
      outer.contains inner = true ↔
        (outer.left ≤ inner.left ∧ outer.top ≤ inner.top ∧
          inner.right ≤ outer.right ∧ inner.bottom ≤ outer.bottom)) ∧
    (Rect.new 10 10 20 20 : LogicalRect Int).contains (Rect.new 19 19 20 20) = true ∧
    (Rect.new 10 10 20 20 : LogicalRect Int).contains (Rect.new 9 9 10 10) = false := by
  refine ⟨?_, by decide, by decide⟩
  intro T _ Coord outer inner
  simp only [Rect.contains, Bool.and_eq_true, decide_eq_true_eq, ge_iff_le]
  tauto

/-- Witness for C3: every rectangle contains a concrete sub-rectangle. -/
theorem C3_rect_contains_rect_witness :
    (Rect.new 0 0 8 8 : LogicalRect Int).contains (Rect.new 2 2 6 6) = true :=
  (C3_rect_contains_rect.1 Int Logical (Rect.new 0 0 8 8) (Rect.new 2 2 6 6)).mpr
    (by decide)

/-- C4: crossing is symmetric: rect-vs-point delegates to point-vs-rect, and
rect-vs-rect crossing gives the same answer with the arguments swapped. -/
theorem C4_is_crossing_symmetric :
    (∀ (T : Type) [LinearOrder T] (Coord : Type)
        (p : Position T Coord) (r : Rect T Coord),
      p.is_crossing r = r.is_crossing_pos p) ∧
    (∀ (T : Type) [LinearOrder T] (Coord : Type) (a b : Rect T Coord),
      a.is_crossing b = b.is_crossing a) := by
  refine ⟨fun T _ Coord p r => rfl, ?_⟩
  intro T _ Coord a b
  rw [Bool.eq_iff_iff]
  simp only [Rect.is_crossing, Bool.and_eq_true, decide_eq_true_eq, ge_iff_le]
  tauto

/-- Witness for C4 at concrete overlapping rectangles. -/
theorem C4_is_crossing_symmetric_witness :
    (Rect.new 0 0 10 10 : LogicalRect Int).is_crossing (Rect.new 5 5 15 15) =
      (Rect.new 5 5 15 15 : LogicalRect Int).is_crossing (Rect.new 0 0 10 10) :=
  C4_is_crossing_symmetric.2 Int Logical (Rect.new 0 0 10 10) (Rect.new 5 5 15 15)

/-- C5: in both point/rect directions, containment is the very same predicate
as crossing, and the spec's point-contains-rect examples hold (no stricter
proper-containment rule). -/
theorem C5_contains_eq_crossing_point :
    (∀ (T : Type) [LinearOrder T] (Coord : Type)
        (r : Rect T Coord) (p : Position T Coord),
      r.contains_pos p = r.is_crossing_pos p) ∧
    (∀ (T : Type) [LinearOrder T] (Coord : Type)
        (p : Position T Coord) (r : Rect T Coord),
      p.contains r = p.is_crossing r) ∧
    (Position.new 10 10 : LogicalPosition Int).contains (Rect.new 9 9 10 10) = true ∧
    (Position.new 10 10 : LogicalPosition Int).contains (Rect.new 11 11 12 12) = false :=
  ⟨fun T _ Coord r p => rfl, fun T _ Coord p r => rfl, by decide, by decide⟩

/-- Witness for C5 at a concrete point and rectangle. -/
theorem C5_contains_eq_crossing_point_witness :
    (Rect.new 0 0 4 4 : LogicalRect Int).contains_pos (Position.new 2 2) =
      (Rect.new 0 0 4 4 : LogicalRect Int).is_crossing_pos (Position.new 2 2) :=
  C5_contains_eq_crossing_point.1 Int Logical (Rect.new 0 0 4 4) (Position.new 2 2)

/-- C10: every rectangle contains itself; a rectangle crosses itself exactly
when it is not inverted; and a concrete inverted rectangle contains itself
without crossing itself, so containment does not imply crossing. -/
theorem C10_self_containment_vs_crossing :
    (∀ (T : Type) [LinearOrder T] (Coord : Type) (r : Rect T Coord),
      r.contains r = true) ∧
    (∀ (T : Type) [LinearOrder T] (Coord : Type) (r : Rect T Coord),
      r.is_crossing r = true ↔ (r.left ≤ r.right ∧ r.top ≤ r.bottom)) ∧
    (Rect.new 1 1 0 0 : LogicalRect Int).contains (Rect.new 1 1 0 0) = true ∧
    (Rect.new 1 1 0 0 : LogicalRect Int).is_crossing (Rect.new 1 1 0 0) = false := by
  refine ⟨?_, ?_, by decide, by decide⟩
  · intro T _ Coord r
    simp [Rect.contains]
  · intro T _ Coord r
    simp only [Rect.is_crossing, Bool.and_eq_true, decide_eq_true_eq, ge_iff_le]
    tauto

/-- Witness for C10: a concrete inverted rectangle contains itself. -/
theorem C10_self_containment_vs_crossing_witness :
    (Rect.new 7 7 3 3 : LogicalRect Int).contains (Rect.new 7 7 3 3) = true :=
  C10_self_containment_vs_crossing.1 Int Logical (Rect.new 7 7 3 3)

/-! Helper lemmas for the DPI conversion values. -/

/-- Over `Int`, `to_physical_value` is `(a * dpi).tdiv 96`. -/
lemma to_physical_value_int_eq (a dpi : Int) :
    to_physical_value a dpi = (a * dpi).tdiv 96 :=
  rfl

/-- Over `Int`, `to_logical_value` is `(a * 96).tdiv dpi`. -/
lemma to_logical_value_int_eq (a dpi : Int) :
    to_logical_value a dpi = (a * 96).tdiv dpi :=
  rfl

/-- Over `ℚ`, `to_physical_value` is `a * dpi / 96`. -/
lemma to_physical_value_rat_eq (a dpi : ℚ) :
    to_physical_value a dpi = a * dpi / 96 := by
  simp [to_physical_value, instNumRepRat, DEFAULT_DPI]

/-- Over `ℚ`, `to_logical_value` is `a * 96 / dpi`. -/
lemma to_logical_value_rat_eq (a dpi : ℚ) :
    to_logical_value a dpi = a * 96 / dpi := by
  simp [to_logical_value, instNumRepRat, DEFAULT_DPI]

/-- At DPI 192 the logical-to-physical component map doubles an integer. -/
lemma to_physical_value_int_double (a : Int) :
    to_physical_value a 192 = 2 * a := by
  rw [to_physical_value_int_eq, show a * 192 = 96 * (2 * a) by ring]
  exact Int.mul_tdiv_cancel_left _ (by norm_num)

/-- At DPI 192 the physical-to-logical component map halves an even integer. -/
lemma to_logical_value_int_half (k : Int) :
    to_logical_value (2 * k) 192 = k := by
  rw [to_logical_value_int_eq, show 2 * k * 96 = 192 * k by ring]
  exact Int.mul_tdiv_cancel_left _ (by norm_num)

/-- Rational components round-trip exactly through Physical at any nonzero DPI. -/
lemma round_trip_value_rat (a dpi : ℚ) (h : dpi ≠ 0) :
    to_logical_value (to_physical_value a dpi) dpi = a := by
  rw [to_physical_value_rat_eq, to_logical_value_rat_eq]
  field_simp

/-- Integer components round-trip exactly through Physical when the forward
division is exact (`96 ∣ a * dpi`) and the DPI is nonzero. -/
lemma round_trip_value_int (a dpi : Int) (h : dpi ≠ 0) (hd : (96 : Int) ∣ a * dpi) :
    to_logical_value (to_physical_value a dpi) dpi = a := by
  obtain ⟨c, hc⟩ := hd
  rw [to_physical_value_int_eq, to_logical_value_int_eq, hc,
    Int.mul_tdiv_cancel_left c (by norm_num),
    show c * 96 = a * dpi by rw [mul_comm]; exact hc.symm,
    Int.mul_tdiv_cancel a h]

/-- C6: conversion to the coordinate space a value is already in is the
identity for positions, sizes and rectangles, for every representation and
every DPI argument (the DPI is ignored). -/
theorem C6_same_space_identity :
    (∀ (T : Type) (p : LogicalPosition T) (dpi : T),
      LogicalPosition.to_logical p dpi = p) ∧
    (∀ (T : Type) (s : LogicalSize T) (dpi : T),
      LogicalSize.to_logical s dpi = s) ∧
    (∀ (T : Type) (r : LogicalRect T) (dpi : T),
      LogicalRect.to_logical r dpi = r) ∧
    (∀ (T : Type) (p : PhysicalPosition T) (dpi : T),
      PhysicalPosition.to_physical p dpi = p) ∧
    (∀ (T : Type) (s : PhysicalSize T) (dpi : T),
      PhysicalSize.to_physical s dpi = s) ∧
    (∀ (T : Type) (r : PhysicalRect T) (dpi : T),
      PhysicalRect.to_physical r dpi = r) :=
  ⟨fun _T _p _dpi => rfl, fun _T _s _dpi => rfl, fun _T _r _dpi => rfl,
    fun _U _q _dots => rfl, fun _U _z _dots => rfl, fun _U _w _dots => rfl⟩

/-- Witness for C6 at a concrete logical position and DPI 192. -/
theorem C6_same_space_identity_witness :
    LogicalPosition.to_logical (Position.new 128 256 : LogicalPosition Int) 192 =
      Position.new 128 256 :=
  C6_same_space_identity.1 Int (Position.new 128 256) 192

/-- C7: over the integer representation, logical-to-physical maps each
component `a` to `a * dpi / 96` (truncating division) and physical-to-logical
maps it to `a * 96 / dpi`, with 96 the reference DPI constant; hence DPI 192
doubles logical components and exactly halves even physical components. -/
theorem C7_dpi_scaling :
    DEFAULT_DPI = 96 ∧
    (∀ (p : LogicalPosition Int) (dpi : Int), dpi ≠ 0 →
      LogicalPosition.to_physical p dpi =
        Position.new ((p.x * dpi).tdiv 96) ((p.y * dpi).tdiv 96)) ∧
    (∀ (s : LogicalSize Int) (dpi : Int), dpi ≠ 0 →
      LogicalSize.to_physical s dpi =
        Size.new ((s.width * dpi).tdiv 96) ((s.height * dpi).tdiv 96)) ∧
    (∀ (r : LogicalRect Int) (dpi : Int), dpi ≠ 0 →
      LogicalRect.to_physical r dpi =
        Rect.new ((r.left * dpi).tdiv 96) ((r.top * dpi).tdiv 96)
          ((r.right * dpi).tdiv 96) ((r.bottom * dpi).tdiv 96)) ∧
    (∀ (p : PhysicalPosition Int) (dpi : Int), dpi ≠ 0 →
      PhysicalPosition.to_logical p dpi =
        Position.new ((p.x * 96).tdiv dpi) ((p.y * 96).tdiv dpi)) ∧
    (∀ (s : PhysicalSize Int) (dpi : Int), dpi ≠ 0 →
      PhysicalSize.to_logical s dpi =
        Size.new ((s.width * 96).tdiv dpi) ((s.height * 96).tdiv dpi)) ∧
    (∀ (r : PhysicalRect Int) (dpi : Int), dpi ≠ 0 →
      PhysicalRect.to_logical r dpi =
        Rect.new ((r.left * 96).tdiv dpi) ((r.top * 96).tdiv dpi)
          ((r.right * 96).tdiv dpi) ((r.bottom * 96).tdiv dpi)) ∧
    (∀ p : LogicalPosition Int,
      LogicalPosition.to_physical p 192 = Position.new (2 * p.x) (2 * p.y)) ∧
    (∀ s : LogicalSize Int,
      LogicalSize.to_physical s 192 = Size.new (2 * s.width) (2 * s.height)) ∧
    (∀ r : LogicalRect Int,
      LogicalRect.to_physical r 192 =
        Rect.new (2 * r.left) (2 * r.top) (2 * r.right) (2 * r.bottom)) ∧
    (∀ (p : PhysicalPosition Int) (k l : Int), p.x = 2 * k → p.y = 2 * l →
      PhysicalPosition.to_logical p 192 = Position.new k l) ∧
    (∀ (s : PhysicalSize Int) (k l : Int), s.width = 2 * k → s.height = 2 * l →
      PhysicalSize.to_logical s 192 = Size.new k l) ∧
    (∀ (r : PhysicalRect Int) (k l m n : Int),
      r.left = 2 * k → r.top = 2 * l → r.right = 2 * m → r.bottom = 2 * n →
      PhysicalRect.to_logical r 192 = Rect.new k l m n) := by
  refine ⟨rfl, fun _p _dpi _hp => rfl, fun _s _dpi _hs => rfl, fun _r _dpi _hr => rfl,
    fun _q _dpi _hq => rfl, fun _z _dpi _hz => rfl, fun _w _dpi _hw => rfl,
    ?_, ?_, ?_, ?_, ?_, ?_⟩
  · intro p
    simp [LogicalPosition.to_physical, Position.new, to_physical_value_int_double]
  · intro s
    simp [LogicalSize.to_physical, Size.new, to_physical_value_int_double]
  · intro r
    simp [LogicalRect.to_physical, Rect.new, to_physical_value_int_double]
  · intro p k l hk hl
    simp [PhysicalPosition.to_logical, Position.new, hk, hl, to_logical_value_int_half]
  · intro s k l hk hl
    simp [PhysicalSize.to_logical, Size.new, hk, hl, to_logical_value_int_half]
  · intro r k l m n hk hl hm hn
    simp [PhysicalRect.to_logical, Rect.new, hk, hl, hm, hn, to_logical_value_int_half]

/-- Witness for C7: DPI 192 halves the even physical position (6, 10). -/
theorem C7_dpi_scaling_witness :
    PhysicalPosition.to_logical (Position.new 6 10 : PhysicalPosition Int) 192 =
      Position.new 3 5 :=
  C7_dpi_scaling.2.2.2.2.2.2.2.2.2.2.1 (Position.new 6 10) 3 5 rfl rfl

/-- C8: converting Logical to Physical and back at the same positive DPI is
the identity: exactly over the rationals for positions, sizes and
rectangles, and over the integers whenever the forward division truncates
nothing (96 divides each component times the DPI). -/
theorem C8_round_trip :
    (∀ (p : LogicalPosition ℚ) (dpi : ℚ), 0 < dpi →
      PhysicalPosition.to_logical (LogicalPosition.to_physical p dpi) dpi = p) ∧
    (∀ (s : LogicalSize ℚ) (dpi : ℚ), 0 < dpi →
      PhysicalSize.to_logical (LogicalSize.to_physical s dpi) dpi = s) ∧
    (∀ (r : LogicalRect ℚ) (dpi : ℚ), 0 < dpi →
      PhysicalRect.to_logical (LogicalRect.to_physical r dpi) dpi = r) ∧
    (∀ (p : LogicalPosition Int) (dpi : Int), 0 < dpi →
      (96 : Int) ∣ p.x * dpi → (96 : Int) ∣ p.y * dpi →
      PhysicalPosition.to_logical (LogicalPosition.to_physical p dpi) dpi = p) ∧
    (∀ (s : LogicalSize Int) (dpi : Int), 0 < dpi →
      (96 : Int) ∣ s.width * dpi → (96 : Int) ∣ s.height * dpi →
      PhysicalSize.to_logical (LogicalSize.to_physical s dpi) dpi = s) ∧
    (∀ (r : LogicalRect Int) (dpi : Int), 0 < dpi →
      (96 : Int) ∣ r.left * dpi → (96 : Int) ∣ r.top * dpi →
      (96 : Int) ∣ r.right * dpi → (96 : Int) ∣ r.bottom * dpi →
      PhysicalRect.to_logical (LogicalRect.to_physical r dpi) dpi = r) := by
  refine ⟨?_, ?_, ?_, ?_, ?_, ?_⟩
  · intro p dpi h
    obtain ⟨x, y⟩ := p
    show Position.mk (to_logical_value (to_physical_value x dpi) dpi)
        (to_logical_value (to_physical_value y dpi) dpi) = Position.mk x y
    rw [round_trip_value_rat x dpi h.ne', round_trip_value_rat y dpi h.ne']
  · intro s dpi h
    obtain ⟨w, t⟩ := s
    show Size.mk (to_logical_value (to_physical_value w dpi) dpi)
        (to_logical_value (to_physical_value t dpi) dpi) = Size.mk w t
    rw [round_trip_value_rat w dpi h.ne', round_trip_value_rat t dpi h.ne']
  · intro r dpi h
    obtain ⟨a, b, c, d⟩ := r
    show Rect.mk (to_logical_value (to_physical_value a dpi) dpi)
        (to_logical_value (to_physical_value b dpi) dpi)
        (to_logical_value (to_physical_value c dpi) dpi)
        (to_logical_value (to_physical_value d dpi) dpi) = Rect.mk a b c d
    rw [round_trip_value_rat a dpi h.ne', round_trip_value_rat b dpi h.ne',
      round_trip_value_rat c dpi h.ne', round_trip_value_rat d dpi h.ne']
  · intro p dpi h hx hy
    obtain ⟨x, y⟩ := p
    show Position.mk (to_logical_value (to_physical_value x dpi) dpi)
        (to_logical_value (to_physical_value y dpi) dpi) = Position.mk x y
    rw [round_trip_value_int x dpi h.ne' hx, round_trip_value_int y dpi h.ne' hy]
  · intro s dpi h hw ht
    obtain ⟨w, t⟩ := s
    show Size.mk (to_logical_value (to_physical_value w dpi) dpi)
        (to_logical_value (to_physical_value t dpi) dpi) = Size.mk w t
    rw [round_trip_value_int w dpi h.ne' hw, round_trip_value_int t dpi h.ne' ht]
  · intro r dpi h ha hb hc hd
    obtain ⟨a, b, c, d⟩ := r
    show Rect.mk (to_logical_value (to_physical_value a dpi) dpi)
        (to_logical_value (to_physical_value b dpi) dpi)
        (to_logical_value (to_physical_value c dpi) dpi)
        (to_logical_value (to_physical_value d dpi) dpi) = Rect.mk a b c d
    rw [round_trip_value_int a dpi h.ne' ha, round_trip_value_int b dpi h.ne' hb,
      round_trip_value_int c dpi h.ne' hc, round_trip_value_int d dpi h.ne' hd]

/-- Witness for C8 at the rational position (3, 5) and DPI 144. -/
theorem C8_round_trip_witness :
    PhysicalPosition.to_logical
        (LogicalPosition.to_physical (Position.new 3 5 : LogicalPosition ℚ) 144) 144 =
      Position.new 3 5 :=
  C8_round_trip.1 (Position.new 3 5) 144 (by norm_num)

/-- C9: the union of Left and Right contains Left and Right, contains
neither Middle nor any valid extra button, and building a `MouseButtons`
from an array, a slice, or a vector of buttons is exactly the fold of the
empty bitset by successive unions. -/
theorem C9_mouse_buttons :
    (MouseButton.Left.bitor MouseButton.Right).contains MouseButton.Left = true ∧
    (MouseButton.Left.bitor MouseButton.Right).contains MouseButton.Right = true ∧
    (MouseButton.Left.bitor MouseButton.Right).contains MouseButton.Middle = false ∧
    (∀ i : Nat, i < MouseButton.EX_LEN →
      (MouseButton.Left.bitor MouseButton.Right).contains (MouseButton.Ex i) = false) ∧
    (∀ l : List MouseButton,
      MouseButtons.from_array l = l.foldl (fun r b => r.bitor b) MouseButtons.new ∧
      MouseButtons.from_slice l = l.foldl (fun r b => r.bitor b) MouseButtons.new ∧
      MouseButtons.from_vec l = l.foldl (fun r b => r.bitor b) MouseButtons.new) :=
  ⟨by decide, by decide, by decide, by decide, fun l => ⟨rfl, rfl, rfl⟩⟩

/-- Witness for C9: the union of Left and Right excludes extra button 5. -/
theorem C9_mouse_buttons_witness :
    (MouseButton.Left.bitor MouseButton.Right).contains (MouseButton.Ex 5) = false :=
  C9_mouse_buttons.2.2.2.1 5 (by decide)

end Gedv
